import Mathlib

/-!
Verification of `scripts/generate-test-dump.py`, a generator of
mysqldump-format SQL benchmark files.

The Python script is shallowly embedded below.  Pseudo-randomness
(Python's global `random` module) is modelled by an explicit oracle
record `Rng`: every primitive draw made inside one call of a generator
function reads its own field of the record.  `random.random()` (a float
in `[0,1)`) is modelled as a rational number; `random.randint(a, b)` is
modelled as `a + raw % (b + 1 - a)` over a raw oracle value, which is
exactly a uniform draw's possible outcomes; `random.choice(l)` is
modelled as indexing `l` at `raw % l.length`.
-/

set_option maxRecDepth 10000

/-- The values `generate_row_value` can return: Python `None`, `int`,
`float` (decimal branch) and `str`. -/
inductive SqlValue where
  | null
  | intV (n : Nat)
  | floatV (q : ℚ)
  | strV (s : String)
deriving DecidableEq

/-- Oracle for the pseudo-random draws of a single `generate_row_value`
call.  Each field corresponds to one `random.*` call site in the source;
fields of type `Nat → Nat` serve call sites that draw one value per index
(`random.choices(..., k=n)`). -/
structure Rng where
  nullDraw : ℚ
  fkRaw : Nat
  emailFirstRaw : Nat
  emailLastRaw : Nat
  emailNumRaw : Nat
  emailDomRaw : Nat
  nameFirstRaw : Nat
  nameLastRaw : Nat
  firstNameRaw : Nat
  lastNameRaw : Nat
  urlChars : Nat → Nat
  ipRawA : Nat
  ipRawB : Nat
  ipRawC : Nat
  ipRawD : Nat
  dtRaw : Nat
  deltaDays : Nat
  tinyRaw : Nat
  jsonRaw : Nat
  decRaw : Nat
  intRaw : Nat
  bigintRaw : Nat
  enumRaw : Nat
  textCountRaw : Nat
  textWordRaws : Nat → Nat
  titleCountRaw : Nat
  titleWordRaws : Nat → Nat
  skuChars : Nat → Nat
  skuNumRaw : Nat
  orderNumRaw : Nat
  hashChars : Nat → Nat
  uaRaw : Nat
  vcLenRaw : Nat
  vcChars : Nat → Nat
  charChars : Nat → Nat
  fallbackChars : Nat → Nat

/-- A concrete oracle (all raw draws zero), used to evaluate the
generator on concrete inputs. -/
def rng0 : Rng where
  nullDraw := 0
  fkRaw := 0
  emailFirstRaw := 0
  emailLastRaw := 0
  emailNumRaw := 0
  emailDomRaw := 0
  nameFirstRaw := 0
  nameLastRaw := 0
  firstNameRaw := 0
  lastNameRaw := 0
  urlChars := fun _ => 0
  ipRawA := 0
  ipRawB := 0
  ipRawC := 0
  ipRawD := 0
  dtRaw := 0
  deltaDays := 0
  tinyRaw := 0
  jsonRaw := 0
  decRaw := 0
  intRaw := 0
  bigintRaw := 0
  enumRaw := 0
  textCountRaw := 0
  textWordRaws := fun _ => 0
  titleCountRaw := 0
  titleWordRaws := fun _ => 0
  skuChars := fun _ => 0
  skuNumRaw := 0
  orderNumRaw := 0
  hashChars := fun _ => 0
  uaRaw := 0
  vcLenRaw := 0
  vcChars := fun _ => 0
  charChars := fun _ => 0
  fallbackChars := fun _ => 0

/-- The fixed probability of the null-injection rule
(`random.random() < 0.1` in the source). -/
def nullProb : ℚ := 1 / 10

/-- Python `str.lower()` (all strings in the script are ASCII). -/
def pyLower (s : String) : String := String.mk (s.data.map Char.toLower)

/-- Python `str.upper()` (all strings in the script are ASCII). -/
def pyUpper (s : String) : String := String.mk (s.data.map Char.toUpper)

/-- Python `str.capitalize()`: first character uppercased, rest
lowercased. -/
def pyCapitalize (s : String) : String :=
  match s.data with
  | [] => ""
  | c :: t => String.mk (Char.toUpper c :: t.map Char.toLower)

/-- Python `needle in hay` on strings: substring containment. -/
def isSubstr (needle : List Char) : List Char → Bool
  | [] => needle.isPrefixOf ([] : List Char)
  | c :: t => needle.isPrefixOf (c :: t) || isSubstr needle t

/-- `strContains hay needle`: Python `needle in hay`. -/
def strContains (hay needle : String) : Bool := isSubstr needle.data hay.data

/-- Python `str.endswith`. -/
def strEndsWith (s suffix : String) : Bool := suffix.data.isSuffixOf s.data

/-- The characters stripped by `v.strip("'\"")` in the enum branch. -/
def isQuoteChar (c : Char) : Bool := c == '\'' || c == '"'

/-- Python `v.strip("'\"")`: drop leading and trailing quote characters. -/
def stripQuotes (s : String) : String :=
  String.mk (((s.data.dropWhile isQuoteChar).reverse.dropWhile isQuoteChar).reverse)

/-- Numeric value of a digit list (used for the `\(\d+\)` regex groups). -/
def digitsVal (l : List Char) : Nat := l.foldl (fun a c => a * 10 + (c.toNat - 48)) 0

/-- `findParenNum pat s`: leftmost match of the regex `pat(\d+)\)` where
`pat` already contains the opening parenthesis, e.g. pattern
`varchar\((\d+)\)` with `pat = "varchar("`.  Returns the numeral group. -/
def findParenNum (pat : List Char) : List Char → Option Nat
  | [] => none
  | c :: t =>
    if pat.isPrefixOf (c :: t) then
      let rest := (c :: t).drop pat.length
      let ds := rest.takeWhile Char.isDigit
      if ds ≠ [] && ((rest.drop ds.length).headD ' ' == ')') then some (digitsVal ds)
      else findParenNum pat t
    else findParenNum pat t

/-- Leftmost match of `re.search(r"enum\(([^)]+)\)", s)`: the nonempty
group of non-`)` characters between `enum(` and the following `)`. -/
def enumGroup : List Char → Option (List Char)
  | [] => none
  | c :: t =>
    if ("enum(".data).isPrefixOf (c :: t) then
      let rest := (c :: t).drop 5
      let grp := rest.takeWhile (fun d => !(d == ')'))
      if grp ≠ [] && grp.length < rest.length then some grp
      else enumGroup t
    else enumGroup t

/-- Python `s.split(",")`: split at every comma, keeping empty segments. -/
def splitOnComma : List Char → List (List Char)
  | [] => [[]]
  | c :: t =>
    let r := splitOnComma t
    if c == ',' then [] :: r
    else (c :: r.headD []) :: r.tailD []

/-- The enum value list as parsed by the source:
`[v.strip("'\"") for v in match.group(1).split(",")]`. -/
def enumValuesOf (typeLower : String) : List String :=
  match enumGroup typeLower.data with
  | some g => (splitOnComma g).map fun v => stripQuotes (String.mk v)
  | none => []

def FIRST_NAMES : List String :=
  ["James", "Mary", "John", "Patricia", "Robert", "Jennifer", "Michael", "Linda",
   "William", "Elizabeth", "David", "Barbara", "Richard", "Susan", "Joseph",
   "Jessica", "Thomas", "Sarah", "Charles", "Karen"]

def LAST_NAMES : List String :=
  ["Smith", "Johnson", "Williams", "Brown", "Jones", "Garcia", "Miller", "Davis",
   "Rodriguez", "Martinez", "Hernandez", "Lopez", "Gonzalez", "Wilson", "Anderson",
   "Thomas", "Taylor", "Moore", "Jackson", "Martin"]

def WORDS : List String :=
  ["lorem", "ipsum", "dolor", "sit", "amet", "consectetur", "adipiscing", "elit",
   "sed", "do", "eiusmod", "tempor", "incididunt", "ut", "labore", "et", "dolore",
   "magna", "aliqua", "enim", "ad", "minim", "veniam"]

def DOMAINS : List String :=
  ["gmail.com", "yahoo.com", "hotmail.com", "outlook.com", "example.com", "test.org",
   "company.io"]

/-- `string.ascii_lowercase`. -/
def ascii_lowercase : List Char := "abcdefghijklmnopqrstuvwxyz".data

/-- `random.randint(a, b)` driven by a raw draw: always lands in `[a, b]`
when `a ≤ b`. -/
def randint (a b raw : Nat) : Nat := a + raw % (b + 1 - a)

/-- `random.choice(l)` driven by a raw draw. -/
def choice {α : Type} (l : List α) (d : α) (raw : Nat) : α := l.getD (raw % l.length) d

/-- `random_string(length)`: `''.join(random.choices(string.ascii_lowercase,
k=length))`. -/
def random_string (cs : Nat → Nat) (length : Nat) : String :=
  String.mk ((List.range length).map fun i => choice ascii_lowercase 'a' (cs i))

/-- `random_email()`. -/
def random_email (rng : Rng) : String :=
  pyLower (choice FIRST_NAMES "" rng.emailFirstRaw) ++ "." ++
    pyLower (choice LAST_NAMES "" rng.emailLastRaw) ++
    toString (randint 1 999 rng.emailNumRaw) ++ "@" ++
    choice DOMAINS "" rng.emailDomRaw

/-- `random_name()`. -/
def random_name (rng : Rng) : String :=
  choice FIRST_NAMES "" rng.nameFirstRaw ++ " " ++ choice LAST_NAMES "" rng.nameLastRaw

/-- `random_text(min_words, max_words)`. -/
def random_text (minWords maxWords : Nat) (countRaw : Nat) (wordRaws : Nat → Nat) : String :=
  pyCapitalize (String.intercalate " "
      ((List.range (randint minWords maxWords countRaw)).map fun i =>
        choice WORDS "" (wordRaws i))) ++ "."

/-- `random_ip()`. -/
def random_ip (rng : Rng) : String :=
  toString (randint 1 255 rng.ipRawA) ++ "." ++ toString (randint 0 255 rng.ipRawB) ++
    "." ++ toString (randint 0 255 rng.ipRawC) ++ "." ++ toString (randint 1 254 rng.ipRawD)

/-- `random_datetime()`: the source picks `random_days = randint(0,
(now - 2020-01-01).days)` and renders the date with `strftime`.  The
wall-clock day span is the oracle field `deltaDays`; the calendar
rendering (pure formatting, inspected by no claim) is abstracted to the
chosen day offset. -/
def random_datetime (deltaDays raw : Nat) : String :=
  "2020-01-01+" ++ toString (raw % (deltaDays + 1)) ++ "d 00:00:00"

/-- `round(random.uniform(1.0, 999.99), 2)`: a rational with two decimal
places in `[1, 999.99]`, driven by a raw draw (inspected by no claim). -/
def randomDecimal (raw : Nat) : ℚ := 1 + (raw % 99900 : ℕ) / 100

/-- Python `str.title()` for the space-joined lowercase words built in the
title branch: capitalize each space-separated word. -/
def pyTitle (s : String) : String :=
  String.intercalate " " ((s.splitOn " ").map pyCapitalize)

/-- One entry of `TABLE_DEFINITIONS`. -/
structure TableDef where
  name : String
  columns : List (String × String)
  primary_key : String
  insert_batch_size : Nat
deriving DecidableEq

def usersDef : TableDef where
  name := "users"
  columns :=
    [("id", "bigint unsigned NOT NULL AUTO_INCREMENT"),
     ("email", "varchar(255) NOT NULL"),
     ("name", "varchar(100) DEFAULT NULL"),
     ("password_hash", "varchar(255) NOT NULL"),
     ("avatar_url", "varchar(500) DEFAULT NULL"),
     ("bio", "text"),
     ("created_at", "datetime DEFAULT NULL"),
     ("updated_at", "datetime DEFAULT NULL")]
  primary_key := "id"
  insert_batch_size := 50

def postsDef : TableDef where
  name := "posts"
  columns :=
    [("id", "bigint unsigned NOT NULL AUTO_INCREMENT"),
     ("user_id", "bigint unsigned NOT NULL"),
     ("title", "varchar(255) NOT NULL"),
     ("slug", "varchar(300) NOT NULL"),
     ("content", "longtext"),
     ("excerpt", "text"),
     ("status", "enum('draft','published','archived') DEFAULT 'draft'"),
     ("published_at", "datetime DEFAULT NULL"),
     ("created_at", "datetime DEFAULT NULL"),
     ("updated_at", "datetime DEFAULT NULL")]
  primary_key := "id"
  insert_batch_size := 20

def commentsDef : TableDef where
  name := "comments"
  columns :=
    [("id", "bigint unsigned NOT NULL AUTO_INCREMENT"),
     ("post_id", "bigint unsigned NOT NULL"),
     ("user_id", "bigint unsigned DEFAULT NULL"),
     ("parent_id", "bigint unsigned DEFAULT NULL"),
     ("body", "text NOT NULL"),
     ("author_name", "varchar(100) DEFAULT NULL"),
     ("author_email", "varchar(255) DEFAULT NULL"),
     ("is_approved", "tinyint(1) DEFAULT '0'"),
     ("created_at", "datetime DEFAULT NULL")]
  primary_key := "id"
  insert_batch_size := 100

def productsDef : TableDef where
  name := "products"
  columns :=
    [("id", "bigint unsigned NOT NULL AUTO_INCREMENT"),
     ("sku", "varchar(50) NOT NULL"),
     ("name", "varchar(255) NOT NULL"),
     ("description", "text"),
     ("price", "decimal(10,2) NOT NULL"),
     ("cost", "decimal(10,2) DEFAULT NULL"),
     ("quantity", "int DEFAULT '0'"),
     ("weight", "decimal(8,3) DEFAULT NULL"),
     ("is_active", "tinyint(1) DEFAULT '1'"),
     ("metadata", "json DEFAULT NULL"),
     ("created_at", "datetime DEFAULT NULL"),
     ("updated_at", "datetime DEFAULT NULL")]
  primary_key := "id"
  insert_batch_size := 30

def ordersDef : TableDef where
  name := "orders"
  columns :=
    [("id", "bigint unsigned NOT NULL AUTO_INCREMENT"),
     ("user_id", "bigint unsigned NOT NULL"),
     ("order_number", "varchar(50) NOT NULL"),
     ("status", "enum('pending','processing','shipped','delivered','cancelled') DEFAULT 'pending'"),
     ("subtotal", "decimal(12,2) NOT NULL"),
     ("tax", "decimal(10,2) DEFAULT '0.00'"),
     ("shipping", "decimal(10,2) DEFAULT '0.00'"),
     ("total", "decimal(12,2) NOT NULL"),
     ("currency", "char(3) DEFAULT 'USD'"),
     ("notes", "text"),
     ("shipped_at", "datetime DEFAULT NULL"),
     ("created_at", "datetime DEFAULT NULL"),
     ("updated_at", "datetime DEFAULT NULL")]
  primary_key := "id"
  insert_batch_size := 40

def orderItemsDef : TableDef where
  name := "order_items"
  columns :=
    [("id", "bigint unsigned NOT NULL AUTO_INCREMENT"),
     ("order_id", "bigint unsigned NOT NULL"),
     ("product_id", "bigint unsigned NOT NULL"),
     ("quantity", "int NOT NULL"),
     ("unit_price", "decimal(10,2) NOT NULL"),
     ("total_price", "decimal(12,2) NOT NULL"),
     ("created_at", "datetime DEFAULT NULL")]
  primary_key := "id"
  insert_batch_size := 100

def sessionsDef : TableDef where
  name := "sessions"
  columns :=
    [("id", "varchar(255) NOT NULL"),
     ("user_id", "bigint unsigned DEFAULT NULL"),
     ("ip_address", "varchar(45) DEFAULT NULL"),
     ("user_agent", "text"),
     ("payload", "longtext NOT NULL"),
     ("last_activity", "int NOT NULL")]
  primary_key := "id"
  insert_batch_size := 50

def activityLogsDef : TableDef where
  name := "activity_logs"
  columns :=
    [("id", "bigint unsigned NOT NULL AUTO_INCREMENT"),
     ("log_name", "varchar(100) DEFAULT NULL"),
     ("description", "text NOT NULL"),
     ("subject_type", "varchar(255) DEFAULT NULL"),
     ("subject_id", "bigint unsigned DEFAULT NULL"),
     ("causer_type", "varchar(255) DEFAULT NULL"),
     ("causer_id", "bigint unsigned DEFAULT NULL"),
     ("properties", "json DEFAULT NULL"),
     ("created_at", "datetime DEFAULT NULL")]
  primary_key := "id"
  insert_batch_size := 80

def cacheDef : TableDef where
  name := "cache"
  columns :=
    [("key", "varchar(255) NOT NULL"),
     ("value", "mediumtext NOT NULL"),
     ("expiration", "int NOT NULL")]
  primary_key := "key"
  insert_batch_size := 100

def mediaDef : TableDef where
  name := "media"
  columns :=
    [("id", "bigint unsigned NOT NULL AUTO_INCREMENT"),
     ("model_type", "varchar(255) NOT NULL"),
     ("model_id", "bigint unsigned NOT NULL"),
     ("collection_name", "varchar(255) NOT NULL"),
     ("name", "varchar(255) NOT NULL"),
     ("file_name", "varchar(255) NOT NULL"),
     ("mime_type", "varchar(100) DEFAULT NULL"),
     ("disk", "varchar(50) DEFAULT 'public'"),
     ("size", "bigint unsigned DEFAULT NULL"),
     ("manipulations", "json DEFAULT NULL"),
     ("custom_properties", "json DEFAULT NULL"),
     ("responsive_images", "json DEFAULT NULL"),
     ("created_at", "datetime DEFAULT NULL"),
     ("updated_at", "datetime DEFAULT NULL")]
  primary_key := "id"
  insert_batch_size := 30

def TABLE_DEFINITIONS : List TableDef :=
  [usersDef, postsDef, commentsDef, productsDef, ordersDef, orderItemsDef,
   sessionsDef, activityLogsDef, cacheDef, mediaDef]

/-- `generate_row_value(table_name, col_name, col_type, row_id)`: the
value-synthesis rule chain, transcribed branch for branch.  The enum
branch only fires when the `enum\(([^)]+)\)` regex matches, as in the
source (otherwise control falls through to the text branches). -/
def generate_row_value (table_name col_name col_type : String) (row_id : Nat)
    (rng : Rng) : SqlValue :=
  if strContains col_type "DEFAULT NULL" && decide (rng.nullDraw < nullProb) then
    .null
  else
    let col_lower := pyLower col_name
    let type_lower := pyLower col_type
    if col_name == "id" && strContains type_lower "auto_increment" then
      .intV row_id
    else if strEndsWith col_name "_id" then
      .intV (randint 1 (max 1 (row_id / 2)) rng.fkRaw)
    else if strContains col_lower "email" then
      .strV (random_email rng)
    else if col_lower == "name" || col_lower == "author_name" then
      .strV (random_name rng)
    else if col_lower == "first_name" then
      .strV (choice FIRST_NAMES "" rng.firstNameRaw)
    else if col_lower == "last_name" then
      .strV (choice LAST_NAMES "" rng.lastNameRaw)
    else if strContains col_lower "url" then
      .strV ("https://example.com/" ++ random_string rng.urlChars 10)
    else if strContains col_lower "ip" then
      .strV (random_ip rng)
    else if strContains type_lower "datetime" || strEndsWith col_lower "_at" then
      .strV (random_datetime rng.deltaDays rng.dtRaw)
    else if strContains type_lower "tinyint" then
      .intV (randint 0 1 rng.tinyRaw)
    else if strContains type_lower "json" then
      .strV ("\x7b\"key\": \"value\", \"count\": " ++
        toString (randint 1 100 rng.jsonRaw) ++ "\x7d")
    else if strContains type_lower "decimal" then
      .floatV (randomDecimal rng.decRaw)
    else if strContains type_lower "int" && !strContains type_lower "bigint" then
      .intV (randint 1 10000 rng.intRaw)
    else if strContains type_lower "bigint" then
      .intV (randint 1 1000000 rng.bigintRaw)
    else if strContains type_lower "enum" && (enumGroup type_lower.data).isSome then
      .strV (choice (enumValuesOf type_lower) "" rng.enumRaw)
    else if strContains type_lower "longtext" then
      .strV (random_text 100 500 rng.textCountRaw rng.textWordRaws)
    else if strContains type_lower "mediumtext" then
      .strV (random_text 50 200 rng.textCountRaw rng.textWordRaws)
    else if strContains type_lower "text" then
      .strV (random_text 20 100 rng.textCountRaw rng.textWordRaws)
    else if strContains type_lower "varchar" then
      let max_len := (findParenNum "varchar(".data type_lower.data).getD 100
      if col_lower == "title" || col_lower == "slug" then
        .strV (String.mk ((pyTitle (String.intercalate " "
          ((List.range (randint 3 8 rng.titleCountRaw)).map fun i =>
            choice WORDS "" (rng.titleWordRaws i)))).data.take max_len))
      else if col_lower == "sku" then
        .strV ("SKU-" ++ pyUpper (random_string rng.skuChars 6) ++ "-" ++
          toString (randint 1000 9999 rng.skuNumRaw))
      else if col_lower == "order_number" then
        .strV ("ORD-" ++ toString (randint 100000 999999 rng.orderNumRaw))
      else if col_lower == "password_hash" then
        .strV ("$2y$10$" ++ random_string rng.hashChars 50)
      else if col_lower == "user_agent" then
        .strV ("Mozilla/5.0 (compatible; Bot/" ++ toString (randint 1 10 rng.uaRaw) ++ ".0)")
      else
        .strV (random_string rng.vcChars (min max_len (randint 10 50 rng.vcLenRaw)))
    else if strContains type_lower "char" then
      .strV (pyUpper (random_string rng.charChars ((findParenNum "char(".data type_lower.data).getD 3)))
    else
      .strV (random_string rng.fallbackChars 20)

/-- Python `s.replace(c, r)` for a single-character needle `c`: every
occurrence of `c` is replaced by `r`. -/
def replace1 (s : List Char) (c : Char) (r : List Char) : List Char :=
  s.flatMap fun x => if x == c then r else [x]

/-- `escape_sql(s)` (on the character list of an already stringified
value): the four sequential single-character replacements of the source,
in source order. -/
def escape_sql (s : List Char) : List Char :=
  replace1 (replace1 (replace1 (replace1 s '\\' ['\\', '\\'])
    '\'' ['\\', '\'']) '\n' ['\\', 'n']) '\r' ['\\', 'r']

/-- Per-character view of `escape_sql` (proved equal to it below). -/
def escChar (c : Char) : List Char :=
  if c == '\\' then ['\\', '\\']
  else if c == '\'' then ['\\', '\'']
  else if c == '\n' then ['\\', 'n']
  else if c == '\r' then ['\\', 'r']
  else [c]

/-- A character list is well escaped for a single-quoted SQL string
context: a backslash is always followed by one of `\\`, `'`, `n`, `r`
(an escape sequence), and outside such a pair no single quote, newline
or carriage return occurs. -/
def wellEscaped : List Char → Bool
  | [] => true
  | c :: rest =>
    if c == '\\' then
      match rest with
      | [] => false
      | d :: rest2 => (d == '\\' || d == '\'' || d == 'n' || d == 'r') && wellEscaped rest2
    else
      !(c == '\'' || c == '\n' || c == '\r') && wellEscaped rest

/-- Every character is an ASCII lowercase letter. -/
def isLowerStr (s : String) : Bool := s.data.all fun c => decide ('a' ≤ c) && decide (c ≤ 'z')

/-- Every character is an ASCII uppercase letter. -/
def isUpperStr (s : String) : Bool := s.data.all fun c => decide ('A' ≤ c) && decide (c ≤ 'Z')

/-- One iteration step of the `while rows_written < num_rows` loop of
`write_table_data`, fueled.  `s` is `rows_written`, `rem` is
`num_rows - rows_written`; each batch is the list of `row_id` values
`rows_written + i + 1` of its rows.  The source loop advances by
`current_batch = min(batch_size, remaining) ≥ 1` rows per iteration
whenever `batch_size ≥ 1` (every catalog table has a positive
`insert_batch_size`), so `num_rows` iterations of fuel always suffice. -/
def writeBatchesF : Nat → Nat → Nat → Nat → List (List Nat)
  | 0, _, _, _ => []
  | fuel + 1, bs, s, rem =>
    if bs = 0 then []
    else if rem = 0 then []
    else
      let current := min bs rem
      ((List.range current).map fun i => s + i + 1) ::
        writeBatchesF fuel bs (s + current) (rem - current)

/-- The batches of row ids emitted by the `write_table_data` loop. -/
def writeBatches (bs s rem : Nat) : List (List Nat) := writeBatchesF rem bs s rem

/-- The list of column values of one row: `generate_row_value` applied to
every column, in column order.  The per-column random draws are supplied
by the oracle `o`, keyed by column name. -/
def rowValues (td : TableDef) (rowId : Nat) (o : String → Rng) : List SqlValue :=
  td.columns.map fun c => generate_row_value td.name c.1 c.2 rowId (o c.1)

/-- The data rows of `write_table_data(f, table_def, num_rows)`, grouped
by INSERT statement: the loop emits one INSERT of `current_batch =
min(batch_size, remaining)` rows per iteration, each row generated with
`row_id = rows_written + i + 1`. -/
def write_table_data (td : TableDef) (numRows : Nat) (o : Nat → String → Rng) :
    List (List (List SqlValue)) :=
  (writeBatches td.insert_batch_size 0 numRows).map fun batch =>
    batch.map fun rowId => rowValues td rowId (o rowId)

/-- `target_bytes = target_size_mb * 1024 * 1024`. -/
def target_bytes (targetSizeMb : Nat) : Nat := targetSizeMb * 1024 * 1024

/-- `rows_per_table = max(100, (target_bytes // len(TABLE_DEFINITIONS)) // 750)`. -/
def rows_per_table (targetSizeMb : Nat) : Nat :=
  max 100 (target_bytes targetSizeMb / TABLE_DEFINITIONS.length / 750)

/-- The fixed text written by `write_header`. -/
def write_header_str : String :=
  "-- MySQL dump 10.13  Distrib 8.0.40, for Linux (x86_64)\n--\n-- Host: localhost    Database: benchmark\n-- ------------------------------------------------------\n-- Server version\t8.0.40\n\n/*!40101 SET @OLD_CHARACTER_SET_CLIENT=@@CHARACTER_SET_CLIENT */;\n/*!40101 SET @OLD_CHARACTER_SET_RESULTS=@@CHARACTER_SET_RESULTS */;\n/*!40101 SET @OLD_COLLATION_CONNECTION=@@COLLATION_CONNECTION */;\n/*!50503 SET NAMES utf8mb4 */;\n/*!40103 SET @OLD_TIME_ZONE=@@TIME_ZONE */;\n/*!40103 SET TIME_ZONE='+00:00' */;\n/*!40014 SET @OLD_UNIQUE_CHECKS=@@UNIQUE_CHECKS, UNIQUE_CHECKS=0 */;\n/*!40014 SET @OLD_FOREIGN_KEY_CHECKS=@@FOREIGN_KEY_CHECKS, FOREIGN_KEY_CHECKS=0 */;\n/*!40101 SET @OLD_SQL_MODE=@@SQL_MODE, SQL_MODE='NO_AUTO_VALUE_ON_ZERO' */;\n/*!40111 SET @OLD_SQL_NOTES=@@SQL_NOTES, SQL_NOTES=0 */;\n\n"

/-- The text written by `write_footer`; `now` is the wall-clock timestamp
rendered by `datetime.now().strftime(...)`. -/
def write_footer_str (now : String) : String :=
  "\n/*!40103 SET TIME_ZONE=@OLD_TIME_ZONE */;\n/*!40014 SET FOREIGN_KEY_CHECKS=@OLD_FOREIGN_KEY_CHECKS */;\n/*!40014 SET UNIQUE_CHECKS=@OLD_UNIQUE_CHECKS */;\n/*!40101 SET CHARACTER_SET_CLIENT=@OLD_CHARACTER_SET_CLIENT */;\n/*!40101 SET CHARACTER_SET_RESULTS=@OLD_CHARACTER_SET_RESULTS */;\n/*!40101 SET COLLATION_CONNECTION=@OLD_COLLATION_CONNECTION */;\n/*!40111 SET SQL_NOTES=@OLD_SQL_NOTES */;\n\n-- Dump completed on " ++ now ++ "\n"

/-- The text written by `write_table_structure(f, table_def)`: the
DROP TABLE IF EXISTS / CREATE TABLE schema block.  It is a pure function
of the table definition: the source makes no random call here. -/
def write_table_structure (td : TableDef) : String :=
  "--\n-- Table structure for table `" ++ td.name ++ "`\n--\n\n" ++
  "DROP TABLE IF EXISTS `" ++ td.name ++ "`;\n" ++
  "/*!40101 SET @saved_cs_client     = @@character_set_client */;\n" ++
  "/*!50503 SET character_set_client = utf8mb4 */;\n" ++
  "CREATE TABLE `" ++ td.name ++ "` (\n" ++
  String.intercalate ",\n"
    ((td.columns.map fun c => "  `" ++ c.1 ++ "` " ++ c.2) ++
      ["  PRIMARY KEY (`" ++ td.primary_key ++ "`)"]) ++
  "\n) ENGINE=InnoDB DEFAULT CHARSET=utf8mb4 COLLATE=utf8mb4_unicode_ci;\n" ++
  "/*!40101 SET character_set_client = @saved_cs_client */;\n\n"

/-- Rendering of one value inside a VALUES tuple: `NULL` for null, a bare
numeral for int/float, a single-quoted escaped string otherwise. -/
def renderValue : SqlValue → String
  | .null => "NULL"
  | .intV n => toString n
  | .floatV q => toString q
  | .strV s => "'" ++ String.mk (escape_sql s.data) ++ "'"

/-- `f"({','.join(values)})"`. -/
def renderRow (vals : List SqlValue) : String :=
  "(" ++ String.intercalate "," (vals.map renderValue) ++ ")"

/-- One INSERT statement of `write_table_data`. -/
def renderBatch (name : String) (colNames : List String) (rows : List (List SqlValue)) :
    String :=
  "INSERT INTO `" ++ name ++ "` (`" ++ String.intercalate "`,`" colNames ++ "`) VALUES\n" ++
  String.intercalate ",\n" (rows.map renderRow) ++ ";\n"

/-- The full text written by `write_table_data`. -/
def render_table_data (td : TableDef) (numRows : Nat) (o : Nat → String → Rng) : String :=
  "--\n-- Dumping data for table `" ++ td.name ++ "`\n--\n\nLOCK TABLES `" ++ td.name ++
    "` WRITE;\n/*!40000 ALTER TABLE `" ++ td.name ++ "` DISABLE KEYS */;\n" ++
  String.join ((write_table_data td numRows o).map
    (renderBatch td.name (td.columns.map Prod.fst))) ++
  "/*!40000 ALTER TABLE `" ++ td.name ++ "` ENABLE KEYS */;\nUNLOCK TABLES;\n\n"

/-- The full text written by `generate_dump`: header, then the schema
block of every table, then the data block of every table, then the
footer.  `now` is the wall-clock footer timestamp; `o` supplies the
random draws of the data rows, keyed by table name. -/
def generate_dump_text (targetSizeMb : Nat) (now : String)
    (o : String → Nat → String → Rng) : String :=
  write_header_str ++
  String.join (TABLE_DEFINITIONS.map write_table_structure) ++
  String.join (TABLE_DEFINITIONS.map fun td =>
    render_table_data td (rows_per_table targetSizeMb) (o td.name)) ++
  write_footer_str now

/-- All rule guards strictly before the enum branch of
`generate_row_value` are false, and the enum branch fires (its substring
test and regex both succeed).  Decidable in the column name and type. -/
abbrev noRuleBeforeEnum (cn ct : String) : Prop :=
  (cn == "id" && strContains (pyLower ct) "auto_increment") = false ∧
  strEndsWith cn "_id" = false ∧
  strContains (pyLower cn) "email" = false ∧
  (pyLower cn == "name" || pyLower cn == "author_name") = false ∧
  (pyLower cn == "first_name") = false ∧
  (pyLower cn == "last_name") = false ∧
  strContains (pyLower cn) "url" = false ∧
  strContains (pyLower cn) "ip" = false ∧
  (strContains (pyLower ct) "datetime" || strEndsWith (pyLower cn) "_at") = false ∧
  strContains (pyLower ct) "tinyint" = false ∧
  strContains (pyLower ct) "json" = false ∧
  strContains (pyLower ct) "decimal" = false ∧
  (strContains (pyLower ct) "int" && !strContains (pyLower ct) "bigint") = false ∧
  strContains (pyLower ct) "bigint" = false ∧
  (strContains (pyLower ct) "enum" && (enumGroup (pyLower ct).data).isSome) = true

/-- All rule guards strictly before the varchar branch of
`generate_row_value` are false, the varchar branch fires, and the column
name is none of the specially formatted varchar names. -/
abbrev reachesVarcharFallback (cn ct : String) : Prop :=
  (cn == "id" && strContains (pyLower ct) "auto_increment") = false ∧
  strEndsWith cn "_id" = false ∧
  strContains (pyLower cn) "email" = false ∧
  (pyLower cn == "name" || pyLower cn == "author_name") = false ∧
  (pyLower cn == "first_name") = false ∧
  (pyLower cn == "last_name") = false ∧
  strContains (pyLower cn) "url" = false ∧
  strContains (pyLower cn) "ip" = false ∧
  (strContains (pyLower ct) "datetime" || strEndsWith (pyLower cn) "_at") = false ∧
  strContains (pyLower ct) "tinyint" = false ∧
  strContains (pyLower ct) "json" = false ∧
  strContains (pyLower ct) "decimal" = false ∧
  (strContains (pyLower ct) "int" && !strContains (pyLower ct) "bigint") = false ∧
  strContains (pyLower ct) "bigint" = false ∧
  (strContains (pyLower ct) "enum" && (enumGroup (pyLower ct).data).isSome) = false ∧
  strContains (pyLower ct) "longtext" = false ∧
  strContains (pyLower ct) "mediumtext" = false ∧
  strContains (pyLower ct) "text" = false ∧
  strContains (pyLower ct) "varchar" = true ∧
  (pyLower cn == "title" || pyLower cn == "slug") = false ∧
  (pyLower cn == "sku") = false ∧
  (pyLower cn == "order_number") = false ∧
  (pyLower cn == "password_hash") = false ∧
  (pyLower cn == "user_agent") = false

/-- All rule guards strictly before the char branch of
`generate_row_value` are false and the char branch fires. -/
abbrev reachesCharBranch (cn ct : String) : Prop :=
  (cn == "id" && strContains (pyLower ct) "auto_increment") = false ∧
  strEndsWith cn "_id" = false ∧
  strContains (pyLower cn) "email" = false ∧
  (pyLower cn == "name" || pyLower cn == "author_name") = false ∧
  (pyLower cn == "first_name") = false ∧
  (pyLower cn == "last_name") = false ∧
  strContains (pyLower cn) "url" = false ∧
  strContains (pyLower cn) "ip" = false ∧
  (strContains (pyLower ct) "datetime" || strEndsWith (pyLower cn) "_at") = false ∧
  strContains (pyLower ct) "tinyint" = false ∧
  strContains (pyLower ct) "json" = false ∧
  strContains (pyLower ct) "decimal" = false ∧
  (strContains (pyLower ct) "int" && !strContains (pyLower ct) "bigint") = false ∧
  strContains (pyLower ct) "bigint" = false ∧
  (strContains (pyLower ct) "enum" && (enumGroup (pyLower ct).data).isSome) = false ∧
  strContains (pyLower ct) "longtext" = false ∧
  strContains (pyLower ct) "mediumtext" = false ∧
  strContains (pyLower ct) "text" = false ∧
  strContains (pyLower ct) "varchar" = false ∧
  strContains (pyLower ct) "char" = true

lemma choice_mem {α : Type} (l : List α) (d : α) (raw : Nat) (h : l ≠ []) :
    choice l d raw ∈ l := by
  have hl : 0 < l.length := List.length_pos.mpr h
  have hlt : raw % l.length < l.length := Nat.mod_lt _ hl
  have e : choice l d raw = l[raw % l.length] := by
    simp [choice, List.getD_eq_getElem?_getD, List.getElem?_eq_getElem hlt]
  rw [e]
  exact List.getElem_mem hlt

lemma randint_le (a b raw : Nat) (h : a ≤ b) : randint a b raw ≤ b := by
  unfold randint
  have : raw % (b + 1 - a) < b + 1 - a := Nat.mod_lt _ (by omega)
  omega

lemma randint_ge (a b raw : Nat) : a ≤ randint a b raw := Nat.le_add_right _ _

/-- C6: the size controller.  For every target size (in MB, hence in
bytes `targetSizeMb * 1024 * 1024`) the per-table row count is
`max(100, targetBytes / tableCount / 750)` with `tableCount = 10` fixed
tables, it is never below `100`, and a target of `0` gives exactly
`100` rows per table. -/
theorem c6_rows_per_table : ∀ targetSizeMb : Nat,
    rows_per_table targetSizeMb =
      max 100 (target_bytes targetSizeMb / TABLE_DEFINITIONS.length / 750) ∧
    TABLE_DEFINITIONS.length = 10 ∧
    100 ≤ rows_per_table targetSizeMb ∧
    rows_per_table 0 = 100 := by
  intro mb
  refine ⟨rfl, by decide, Nat.le_max_left _ _, by decide⟩

/-- C9: two runs of the generator with the same target size produce the
same schema section.  The dump text of any run, for any wall-clock
footer time and any random oracle, is the fixed byte string
`write_header_str ++ (every table's schema block)` followed by a
run-dependent remainder: each table's DROP TABLE/CREATE TABLE block is a
function of the table definition only, so the schema prefix of two runs
is byte-identical even though the data rows may differ. -/
theorem c9_schema_deterministic : ∀ (targetSizeMb : Nat) (now1 now2 : String)
    (o1 o2 : String → Nat → String → Rng), ∃ rest1 rest2 : String,
    generate_dump_text targetSizeMb now1 o1 =
      (write_header_str ++ String.join (TABLE_DEFINITIONS.map write_table_structure)) ++ rest1 ∧
    generate_dump_text targetSizeMb now2 o2 =
      (write_header_str ++ String.join (TABLE_DEFINITIONS.map write_table_structure)) ++ rest2 := by
  intro mb now1 now2 o1 o2
  exact ⟨String.join (TABLE_DEFINITIONS.map fun td =>
      render_table_data td (rows_per_table mb) (o1 td.name)) ++ write_footer_str now1,
    String.join (TABLE_DEFINITIONS.map fun td =>
      render_table_data td (rows_per_table mb) (o2 td.name)) ++ write_footer_str now2,
    String.append_assoc _ _ _, String.append_assoc _ _ _⟩

lemma replace1_append (a b : List Char) (c : Char) (r : List Char) :
    replace1 (a ++ b) c r = replace1 a c r ++ replace1 b c r := by
  simp [replace1]

lemma escape_sql_append (a b : List Char) :
    escape_sql (a ++ b) = escape_sql a ++ escape_sql b := by
  simp [escape_sql, replace1_append]

lemma escape_sql_single (c : Char) : escape_sql [c] = escChar c := by
  by_cases h1 : c = '\\'
  · subst h1; decide
  by_cases h2 : c = '\''
  · subst h2; decide
  by_cases h3 : c = '\n'
  · subst h3; decide
  by_cases h4 : c = '\r'
  · subst h4; decide
  simp [escape_sql, replace1, escChar, h1, h2, h3, h4]

lemma escape_sql_eq_flatMap (s : List Char) : escape_sql s = s.flatMap escChar := by
  induction s with
  | nil => rfl
  | cons c t ih =>
    rw [List.flatMap_cons, ← ih]
    show escape_sql ([c] ++ t) = escChar c ++ escape_sql t
    rw [escape_sql_append, escape_sql_single]

lemma wellEscaped_escChar_append (c : Char) (t : List Char)
    (ht : wellEscaped t = true) : wellEscaped (escChar c ++ t) = true := by
  by_cases h1 : c = '\\'
  · subst h1; simpa [escChar, wellEscaped] using ht
  by_cases h2 : c = '\''
  · subst h2; simpa [escChar, wellEscaped] using ht
  by_cases h3 : c = '\n'
  · subst h3; simpa [escChar, wellEscaped] using ht
  by_cases h4 : c = '\r'
  · subst h4; simpa [escChar, wellEscaped] using ht
  have he : escChar c = [c] := by simp [escChar, h1, h2, h3, h4]
  rw [he, List.cons_append, List.nil_append, wellEscaped.eq_def]
  simp [h1, h2, h3, h4, ht]

lemma wellEscaped_flatMap (s : List Char) : wellEscaped (s.flatMap escChar) = true := by
  induction s with
  | nil => rfl
  | cons c t ih =>
    rw [List.flatMap_cons]
    exact wellEscaped_escChar_append c _ ih

lemma newline_not_mem_escChar (a : Char) : '\n' ∉ escChar a := by
  by_cases h1 : a = '\\'
  · subst h1; decide
  by_cases h2 : a = '\''
  · subst h2; decide
  by_cases h3 : a = '\n'
  · subst h3; decide
  by_cases h4 : a = '\r'
  · subst h4; decide
  simp [escChar, h1, h2, h3, h4]
  exact fun he => h3 he.symm

lemma cr_not_mem_escChar (a : Char) : '\r' ∉ escChar a := by
  by_cases h1 : a = '\\'
  · subst h1; decide
  by_cases h2 : a = '\''
  · subst h2; decide
  by_cases h3 : a = '\n'
  · subst h3; decide
  by_cases h4 : a = '\r'
  · subst h4; decide
  simp [escChar, h1, h2, h3, h4]
  exact fun he => h4 he.symm

/-- C3: `escape_sql` output is always safe between single quotes.  The
escaped form of any input contains no raw newline and no raw carriage
return, and `wellEscaped` holds of it: every backslash starts a
two-character escape sequence (`\\`, `\'`, `\n`, `\r`) and no single
quote, newline or carriage return occurs outside such a sequence.
`escape_sql` itself is the source's four replacements — backslash, then
single quote, then newline, then carriage return, in that order. -/
theorem c3_escape_sql_safe : ∀ s : List Char,
    wellEscaped (escape_sql s) = true ∧
    '\n' ∉ escape_sql s ∧ '\r' ∉ escape_sql s := by
  intro s
  rw [escape_sql_eq_flatMap]
  refine ⟨wellEscaped_flatMap s, ?_, ?_⟩
  · rw [List.mem_flatMap]
    rintro ⟨a, _, hmem⟩
    exact newline_not_mem_escChar a hmem
  · rw [List.mem_flatMap]
    rintro ⟨a, _, hmem⟩
    exact cr_not_mem_escChar a hmem

lemma writeBatchesF_zero_rem (fuel bs s : Nat) : writeBatchesF fuel bs s 0 = [] := by
  cases fuel <;> simp [writeBatchesF]

lemma writeBatchesF_sum (bs : Nat) (hbs : bs ≠ 0) :
    ∀ fuel rem s, rem ≤ fuel →
      ((writeBatchesF fuel bs s rem).map List.length).sum = rem := by
  intro fuel
  induction fuel with
  | zero =>
    intro rem s h
    have : rem = 0 := by omega
    subst this
    simp [writeBatchesF]
  | succ f ih =>
    intro rem s h
    by_cases hr : rem = 0
    · subst hr; simp [writeBatchesF, hbs]
    · rw [writeBatchesF, if_neg hbs, if_neg hr]
      have hcur : 1 ≤ min bs rem := by omega
      have hle : rem - min bs rem ≤ f := by omega
      simp only [List.map_cons, List.sum_cons, List.length_map, List.length_range,
        ih (rem - min bs rem) (s + min bs rem) hle]
      omega

lemma writeBatchesF_ne_nil (bs : Nat) (hbs : bs ≠ 0) (fuel rem s : Nat)
    (hr : rem ≠ 0) (hle : rem ≤ fuel) : writeBatchesF fuel bs s rem ≠ [] := by
  cases fuel with
  | zero => omega
  | succ f =>
    rw [writeBatchesF, if_neg hbs, if_neg hr]
    simp

lemma writeBatchesF_dropLast (bs : Nat) (hbs : bs ≠ 0) :
    ∀ fuel rem s, rem ≤ fuel →
      ∀ x ∈ ((writeBatchesF fuel bs s rem).map List.length).dropLast, x = bs := by
  intro fuel
  induction fuel with
  | zero =>
    intro rem s h
    have : rem = 0 := by omega
    subst this
    simp [writeBatchesF]
  | succ f ih =>
    intro rem s h x hx
    by_cases hr : rem = 0
    · subst hr; simp [writeBatchesF] at hx
    · rw [writeBatchesF, if_neg hbs, if_neg hr] at hx
      simp only [List.map_cons, List.length_map, List.length_range] at hx
      by_cases h2 : rem - min bs rem = 0
      · rw [h2, writeBatchesF_zero_rem] at hx
        simp at hx
      · have hle : rem - min bs rem ≤ f := by omega
        have hnn : (writeBatchesF f bs (s + min bs rem) (rem - min bs rem)).map List.length ≠ [] := by
          intro hc
          exact writeBatchesF_ne_nil bs hbs f (rem - min bs rem) (s + min bs rem) h2 hle
            (List.map_eq_nil_iff.mp hc)
        rw [List.dropLast_cons_of_ne_nil hnn] at hx
        rcases List.mem_cons.mp hx with hx | hx
        · subst hx; omega
        · exact ih (rem - min bs rem) (s + min bs rem) hle x hx

lemma writeBatchesF_getLast (bs : Nat) (hbs : bs ≠ 0) :
    ∀ fuel rem s, rem ≤ fuel → rem % bs ≠ 0 →
      ((writeBatchesF fuel bs s rem).map List.length).getLast? = some (rem % bs) := by
  intro fuel
  induction fuel with
  | zero =>
    intro rem s h hm
    have : rem = 0 := by omega
    subst this
    simp at hm
  | succ f ih =>
    intro rem s h hm
    by_cases hr : rem = 0
    · subst hr; simp at hm
    · rw [writeBatchesF, if_neg hbs, if_neg hr]
      simp only [List.map_cons, List.length_map, List.length_range]
      by_cases h2 : rem - min bs rem = 0
      · rw [h2, writeBatchesF_zero_rem]
        have hcur : min bs rem = rem := by omega
        have hlt : rem < bs := by
          rcases Nat.lt_or_ge rem bs with hlt | hge
          · exact hlt
          · exfalso
            have hb : min bs rem = bs := by omega
            have he : bs = rem := by omega
            subst he
            simp [Nat.mod_self] at hm
        rw [hcur, Nat.mod_eq_of_lt hlt]
        rfl
      · have hle : rem - min bs rem ≤ f := by omega
        have hcur : min bs rem = bs := by omega
        have hmod : (rem - min bs rem) % bs = rem % bs := by
          rw [hcur]
          conv_rhs => rw [show rem = bs + (rem - bs) from by omega]
          rw [Nat.add_mod_left]
        have hnn : (writeBatchesF f bs (s + min bs rem) (rem - min bs rem)).map List.length ≠ [] := by
          intro hc
          exact writeBatchesF_ne_nil bs hbs f (rem - min bs rem) (s + min bs rem) h2 hle
            (List.map_eq_nil_iff.mp hc)
        obtain ⟨y, ys, hys⟩ := List.exists_cons_of_ne_nil hnn
        rw [hys, List.getLast?_cons_cons, ← hys]
        rw [ih (rem - min bs rem) (s + min bs rem) hle (by omega)]
        rw [hmod]

lemma writeBatchesF_flatten (bs : Nat) (hbs : bs ≠ 0) :
    ∀ fuel rem s, rem ≤ fuel →
      (writeBatchesF fuel bs s rem).flatten = List.range' (s + 1) rem := by
  intro fuel
  induction fuel with
  | zero =>
    intro rem s h
    have : rem = 0 := by omega
    subst this
    simp [writeBatchesF]
  | succ f ih =>
    intro rem s h
    by_cases hr : rem = 0
    · subst hr; simp [writeBatchesF, hbs]
    · rw [writeBatchesF, if_neg hbs, if_neg hr]
      have hle : rem - min bs rem ≤ f := by omega
      rw [List.flatten_cons, ih (rem - min bs rem) (s + min bs rem) hle]
      have hbatch : ((List.range (min bs rem)).map fun i => s + i + 1) =
          List.range' (s + 1) (min bs rem) := by
        rw [List.range'_eq_map_range]
        refine List.map_congr_left ?_
        intro i _
        omega
      rw [hbatch]
      have harr : s + min bs rem + 1 = (s + 1) + min bs rem := by omega
      rw [harr, List.range'_append_1]
      congr 1
      omega

lemma write_table_data_lengths (td : TableDef) (numRows : Nat) (o : Nat → String → Rng) :
    (write_table_data td numRows o).map List.length =
      (writeBatches td.insert_batch_size 0 numRows).map List.length := by
  unfold write_table_data
  rw [List.map_map]
  refine List.map_congr_left ?_
  intro batch _
  simp [Function.comp]

/-- C1: the batching of `write_table_data`.  For every catalog table and
every target row count `n`, the INSERT batch sizes emitted by the data
loop sum to exactly `n`; every batch except possibly the last holds
exactly `insert_batch_size` rows; and when `n` is not a multiple of the
batch size the final batch holds exactly `n % insert_batch_size` rows.
In particular `n = 130` with batch size `50` yields batches `50, 50, 30`. -/
theorem c1_batching :
    (∀ td ∈ TABLE_DEFINITIONS, ∀ (numRows : Nat) (o : Nat → String → Rng),
      ((write_table_data td numRows o).map List.length).sum = numRows ∧
      (∀ x ∈ ((write_table_data td numRows o).map List.length).dropLast,
        x = td.insert_batch_size) ∧
      (numRows % td.insert_batch_size ≠ 0 →
        ((write_table_data td numRows o).map List.length).getLast? =
          some (numRows % td.insert_batch_size))) ∧
    (writeBatches 50 0 130).map List.length = [50, 50, 30] := by
  constructor
  · intro td htd numRows o
    have hbs : td.insert_batch_size ≠ 0 := by
      have hall : ∀ t ∈ TABLE_DEFINITIONS, t.insert_batch_size ≠ 0 := by decide
      exact hall td htd
    rw [write_table_data_lengths]
    refine ⟨writeBatchesF_sum _ hbs numRows numRows 0 le_rfl,
      writeBatchesF_dropLast _ hbs numRows numRows 0 le_rfl,
      fun hm => writeBatchesF_getLast _ hbs numRows numRows 0 le_rfl hm⟩
  · decide

/-- Witness for C1 at the `users` table (`insert_batch_size = 50`) and
target `130` rows: the sizes sum to `130` and the final INSERT holds
`130 % 50 = 30` rows. -/
theorem c1_batching_witness :
    ((write_table_data usersDef 130 fun _ _ => rng0).map List.length).sum = 130 ∧
    ((write_table_data usersDef 130 fun _ _ => rng0).map List.length).getLast? = some 30 := by
  have h := c1_batching.1 usersDef (by decide) 130 (fun _ _ => rng0)
  exact ⟨h.1, h.2.2 (by decide)⟩

lemma gen_id (nm cn ct : String) (rid : Nat) (rng : Rng)
    (h0 : strContains ct "DEFAULT NULL" = false)
    (hcn : cn = "id")
    (hauto : strContains (pyLower ct) "auto_increment" = true) :
    generate_row_value nm cn ct rid rng = .intV rid := by
  subst hcn
  unfold generate_row_value
  rw [h0]
  simp [hauto]

/-- C2: for every catalog table whose primary key is the column `id`
with an auto-incrementing type, the value synthesized for that column in
the `N`-th emitted data row (counting across all INSERT batches) is
exactly `N`, for every row position `1 ≤ N ≤ numRows` and every random
oracle — hence primary-key values are unique and strictly increasing
within the table. -/
theorem c2_primary_key : ∀ td ∈ TABLE_DEFINITIONS, td.primary_key = "id" →
    ∀ (j : Nat) (cn ct : String), td.columns[j]? = some (cn, ct) → cn = "id" →
    strContains (pyLower ct) "auto_increment" = true →
    ∀ (numRows : Nat) (o : Nat → String → Rng) (N : Nat), 1 ≤ N → N ≤ numRows →
    ∃ row, ((write_table_data td numRows o).flatten)[N - 1]? = some row ∧
      row[j]? = some (SqlValue.intV N) := by
  intro td htd _ j cn ct hcol hcn hauto numRows o N h1 hN
  have hbs : td.insert_batch_size ≠ 0 := by
    have hall : ∀ t ∈ TABLE_DEFINITIONS, t.insert_batch_size ≠ 0 := by decide
    exact hall td htd
  have hdn : strContains ct "DEFAULT NULL" = false := by
    have hall : ∀ t ∈ TABLE_DEFINITIONS, ∀ p ∈ t.columns, p.1 = "id" →
        strContains (pyLower p.2) "auto_increment" = true →
        strContains p.2 "DEFAULT NULL" = false := by decide
    exact hall td htd (cn, ct) (List.getElem?_mem hcol) hcn hauto
  have hflat : (write_table_data td numRows o).flatten =
      (List.range' 1 numRows).map fun rid => rowValues td rid (o rid) := by
    unfold write_table_data writeBatches
    rw [← List.map_flatten, writeBatchesF_flatten td.insert_batch_size hbs
      numRows numRows 0 le_rfl]
  have hidx : (List.range' 1 numRows)[N - 1]? = some N := by
    rw [List.getElem?_range' 1 1 (by omega)]
    congr 1
    omega
  refine ⟨rowValues td N (o N), ?_, ?_⟩
  · rw [hflat, List.getElem?_map, hidx]
    rfl
  · unfold rowValues
    rw [List.getElem?_map, hcol]
    subst hcn
    simp only [Option.map_some']
    rw [gen_id td.name "id" ct N (o N "id") hdn rfl hauto]

/-- Witness for C2 at the `users` table, column `id` (index 0), two rows,
first row: its `id` value is `1`. -/
theorem c2_primary_key_witness :
    ∃ row, ((write_table_data usersDef 2 fun _ _ => rng0).flatten)[0]? = some row ∧
      row[0]? = some (SqlValue.intV 1) := by
  have h := c2_primary_key usersDef (by decide) rfl 0 "id"
    "bigint unsigned NOT NULL AUTO_INCREMENT" rfl rfl (by decide)
    2 (fun _ _ => rng0) 1 (by decide) (by decide)
  simpa using h

lemma gen_null (nm cn ct : String) (rid : Nat) (rng : Rng)
    (h : (strContains ct "DEFAULT NULL" && decide (rng.nullDraw < nullProb)) = true) :
    generate_row_value nm cn ct rid rng = .null := by
  unfold generate_row_value
  rw [if_pos h]

/-- C5: the null-injection rule.  For every column whose declared type
allows null (the source's test: the type string contains
`DEFAULT NULL`), a per-call draw below the fixed probability `1/10`
makes the synthesizer return null, whatever the column name, type
pattern or row number — the null rule is first in the chain, so no other
rule can preempt it — and for every such nullable column a null result
is possible for some draw. -/
theorem c5_null_rule :
    (∀ (nm cn ct : String) (rid : Nat) (rng : Rng),
      strContains ct "DEFAULT NULL" = true → rng.nullDraw < nullProb →
      generate_row_value nm cn ct rid rng = .null) ∧
    (∀ (nm cn ct : String) (rid : Nat), strContains ct "DEFAULT NULL" = true →
      ∃ rng : Rng, generate_row_value nm cn ct rid rng = .null) := by
  constructor
  · intro nm cn ct rid rng h1 h2
    exact gen_null nm cn ct rid rng (by rw [h1, decide_eq_true h2]; rfl)
  · intro nm cn ct rid h1
    refine ⟨rng0, gen_null nm cn ct rid rng0 ?_⟩
    rw [h1, decide_eq_true (show rng0.nullDraw < nullProb by norm_num [rng0, nullProb])]
    rfl

/-- Witness for C5: a nullable varchar column with a draw of `0 < 1/10`
yields null. -/
theorem c5_null_rule_witness :
    generate_row_value "users" "name" "varchar(100) DEFAULT NULL" 1 rng0 = .null :=
  c5_null_rule.1 "users" "name" "varchar(100) DEFAULT NULL" 1 rng0 (by decide)
    (by norm_num [rng0, nullProb])

set_option maxHeartbeats 2000000 in
/-- C10: `generate_row_value` returns null only when the column's
declared type string contains the substring `DEFAULT NULL`: every other
rule of the chain returns an int, float or string.  Hence columns
declared without that substring (NOT NULL columns and bare text/longtext
columns alike) are never synthesized as null. -/
theorem c10_null_needs_default_null : ∀ (nm cn ct : String) (rid : Nat) (rng : Rng),
    generate_row_value nm cn ct rid rng = .null →
    strContains ct "DEFAULT NULL" = true := by
  intro nm cn ct rid rng h
  by_contra hc
  have hfalse : strContains ct "DEFAULT NULL" = false := by
    cases hcc : strContains ct "DEFAULT NULL" <;> simp_all
  unfold generate_row_value at h
  rw [hfalse] at h
  simp only [Bool.false_and, Bool.false_eq_true, if_false] at h
  cases hq1 : (cn == "id" && strContains (pyLower ct) "auto_increment")
  case true => rw [if_pos hq1] at h; exact SqlValue.noConfusion h
  rw [hq1, if_neg Bool.false_ne_true] at h
  cases hq2 : strEndsWith cn "_id"
  case true => rw [if_pos hq2] at h; exact SqlValue.noConfusion h
  rw [hq2, if_neg Bool.false_ne_true] at h
  cases hq3 : strContains (pyLower cn) "email"
  case true => rw [if_pos hq3] at h; exact SqlValue.noConfusion h
  rw [hq3, if_neg Bool.false_ne_true] at h
  cases hq4 : (pyLower cn == "name" || pyLower cn == "author_name")
  case true => rw [if_pos hq4] at h; exact SqlValue.noConfusion h
  rw [hq4, if_neg Bool.false_ne_true] at h
  cases hq5 : (pyLower cn == "first_name")
  case true => rw [if_pos hq5] at h; exact SqlValue.noConfusion h
  rw [hq5, if_neg Bool.false_ne_true] at h
  cases hq6 : (pyLower cn == "last_name")
  case true => rw [if_pos hq6] at h; exact SqlValue.noConfusion h
  rw [hq6, if_neg Bool.false_ne_true] at h
  cases hq7 : strContains (pyLower cn) "url"
  case true => rw [if_pos hq7] at h; exact SqlValue.noConfusion h
  rw [hq7, if_neg Bool.false_ne_true] at h
  cases hq8 : strContains (pyLower cn) "ip"
  case true => rw [if_pos hq8] at h; exact SqlValue.noConfusion h
  rw [hq8, if_neg Bool.false_ne_true] at h
  cases hq9 : (strContains (pyLower ct) "datetime" || strEndsWith (pyLower cn) "_at")
  case true => rw [if_pos hq9] at h; exact SqlValue.noConfusion h
  rw [hq9, if_neg Bool.false_ne_true] at h
  cases hq10 : strContains (pyLower ct) "tinyint"
  case true => rw [if_pos hq10] at h; exact SqlValue.noConfusion h
  rw [hq10, if_neg Bool.false_ne_true] at h
  cases hq11 : strContains (pyLower ct) "json"
  case true => rw [if_pos hq11] at h; exact SqlValue.noConfusion h
  rw [hq11, if_neg Bool.false_ne_true] at h
  cases hq12 : strContains (pyLower ct) "decimal"
  case true => rw [if_pos hq12] at h; exact SqlValue.noConfusion h
  rw [hq12, if_neg Bool.false_ne_true] at h
  cases hq13 : (strContains (pyLower ct) "int" && !strContains (pyLower ct) "bigint")
  case true => rw [if_pos hq13] at h; exact SqlValue.noConfusion h
  rw [hq13, if_neg Bool.false_ne_true] at h
  cases hq14 : strContains (pyLower ct) "bigint"
  case true => rw [if_pos hq14] at h; exact SqlValue.noConfusion h
  rw [hq14, if_neg Bool.false_ne_true] at h
  cases hq15 : (strContains (pyLower ct) "enum" && (enumGroup (pyLower ct).data).isSome)
  case true => rw [if_pos hq15] at h; exact SqlValue.noConfusion h
  rw [hq15, if_neg Bool.false_ne_true] at h
  cases hq16 : strContains (pyLower ct) "longtext"
  case true => rw [if_pos hq16] at h; exact SqlValue.noConfusion h
  rw [hq16, if_neg Bool.false_ne_true] at h
  cases hq17 : strContains (pyLower ct) "mediumtext"
  case true => rw [if_pos hq17] at h; exact SqlValue.noConfusion h
  rw [hq17, if_neg Bool.false_ne_true] at h
  cases hq18 : strContains (pyLower ct) "text"
  case true => rw [if_pos hq18] at h; exact SqlValue.noConfusion h
  rw [hq18, if_neg Bool.false_ne_true] at h
  cases hq19 : strContains (pyLower ct) "varchar"
  case true =>
    rw [if_pos hq19] at h
    repeat' split at h
    all_goals exact SqlValue.noConfusion h
  rw [hq19, if_neg Bool.false_ne_true] at h
  cases hq20 : strContains (pyLower ct) "char"
  case true => rw [if_pos hq20] at h; exact SqlValue.noConfusion h
  rw [hq20, if_neg Bool.false_ne_true] at h
  exact SqlValue.noConfusion h

/-- Witness for C10: the nullable `name` column at a null draw really
returns null, and its type string indeed contains `DEFAULT NULL`. -/
theorem c10_null_needs_default_null_witness :
    strContains "varchar(100) DEFAULT NULL" "DEFAULT NULL" = true :=
  c10_null_needs_default_null "users" "name" "varchar(100) DEFAULT NULL" 1 rng0
    (gen_null "users" "name" "varchar(100) DEFAULT NULL" 1 rng0
      (by
        rw [decide_eq_true (show rng0.nullDraw < nullProb by norm_num [rng0, nullProb])]
        decide))

lemma endsWith_id_ne_id (cn : String) (h : strEndsWith cn "_id" = true) :
    (cn == "id") = false := by
  by_cases hc : cn = "id"
  · subst hc
    exact absurd h (by decide)
  · simp [hc]

lemma gen_fk (nm cn ct : String) (rid : Nat) (rng : Rng)
    (h0 : (strContains ct "DEFAULT NULL" && decide (rng.nullDraw < nullProb)) = false)
    (hend : strEndsWith cn "_id" = true) :
    generate_row_value nm cn ct rid rng = .intV (randint 1 (max 1 (rid / 2)) rng.fkRaw) := by
  unfold generate_row_value
  rw [if_neg (by rw [h0]; exact Bool.false_ne_true)]
  simp [endsWith_id_ne_id cn hend, hend]

/-- C7: the foreign-key rule.  For every column whose name ends in `_id`
(and that the first rule, null injection, does not eliminate — the
only rule before it that can fire, since a name ending in `_id` never
equals `id`), the synthesized value is an integer in
`[1, max(1, rowId / 2)]`, for every row number; and in particular a
column named `email_id` resolves through the foreign-key rule, not the
email rule. -/
theorem c7_foreign_key :
    (∀ (nm cn ct : String) (rid : Nat) (rng : Rng),
      strEndsWith cn "_id" = true →
      (strContains ct "DEFAULT NULL" && decide (rng.nullDraw < nullProb)) = false →
      generate_row_value nm cn ct rid rng = .intV (randint 1 (max 1 (rid / 2)) rng.fkRaw) ∧
      1 ≤ randint 1 (max 1 (rid / 2)) rng.fkRaw ∧
      randint 1 (max 1 (rid / 2)) rng.fkRaw ≤ max 1 (rid / 2)) ∧
    (∀ (nm ct : String) (rid : Nat) (rng : Rng),
      (strContains ct "DEFAULT NULL" && decide (rng.nullDraw < nullProb)) = false →
      generate_row_value nm "email_id" ct rid rng =
        .intV (randint 1 (max 1 (rid / 2)) rng.fkRaw)) := by
  constructor
  · intro nm cn ct rid rng hend h0
    exact ⟨gen_fk nm cn ct rid rng h0 hend, randint_ge _ _ _,
      randint_le _ _ _ (by omega)⟩
  · intro nm ct rid rng h0
    exact gen_fk nm "email_id" ct rid rng h0 (by decide)

/-- Witness for C7 at the `comments.post_id` column, row 10: the value is
`randint 1 5 0 = 1`, inside `[1, max(1, 10/2)]`. -/
theorem c7_foreign_key_witness :
    generate_row_value "comments" "post_id" "bigint unsigned NOT NULL" 10 rng0 =
      .intV (randint 1 (max 1 (10 / 2)) rng0.fkRaw) ∧
    1 ≤ randint 1 (max 1 (10 / 2)) rng0.fkRaw ∧
    randint 1 (max 1 (10 / 2)) rng0.fkRaw ≤ max 1 (10 / 2) :=
  c7_foreign_key.1 "comments" "post_id" "bigint unsigned NOT NULL" 10 rng0
    (by decide) (by decide)

lemma gen_enum (nm cn ct : String) (rid : Nat) (rng : Rng)
    (h0 : (strContains ct "DEFAULT NULL" && decide (rng.nullDraw < nullProb)) = false)
    (hg : noRuleBeforeEnum cn ct) :
    generate_row_value nm cn ct rid rng =
      .strV (choice (enumValuesOf (pyLower ct)) "" rng.enumRaw) := by
  obtain ⟨h1, h2, h3, h4, h5, h6, h7, h8, h9, h10, h11, h12, h13, h14, h15⟩ := hg
  have h13a : strContains (pyLower ct) "int" = false := by
    rw [h14] at h13
    simpa using h13
  unfold generate_row_value
  simp only [h0, h1, h2, h3, h4, h5, h6, h7, h8, h9, h10, h11, h12, h13a, h14, h15,
    Bool.false_and, Bool.false_eq_true, if_false, if_true]

/-- C4: enum-typed catalog columns only ever produce a declared literal.
For every catalog table and every column of it whose declared type is an
enum, every value returned by `generate_row_value` is either null (the
null rule) or one of the literal values parsed out of the column's
`enum(...)` list, for every row number and every random draw. -/
theorem c4_enum_values : ∀ td ∈ TABLE_DEFINITIONS, ∀ cn ct : String,
    (cn, ct) ∈ td.columns → strContains (pyLower ct) "enum" = true →
    ∀ (rid : Nat) (rng : Rng),
      generate_row_value td.name cn ct rid rng = .null ∨
      ∃ v, generate_row_value td.name cn ct rid rng = .strV v ∧
        v ∈ enumValuesOf (pyLower ct) := by
  intro td htd cn ct hcol henum rid rng
  have hcheck : noRuleBeforeEnum cn ct ∧ enumValuesOf (pyLower ct) ≠ [] := by
    have hall : ∀ t ∈ TABLE_DEFINITIONS, ∀ p ∈ t.columns,
        strContains (pyLower p.2) "enum" = true →
        (noRuleBeforeEnum p.1 p.2 ∧ enumValuesOf (pyLower p.2) ≠ []) := by decide
    exact hall td htd (cn, ct) hcol henum
  by_cases hn : (strContains ct "DEFAULT NULL" && decide (rng.nullDraw < nullProb)) = true
  · exact Or.inl (gen_null td.name cn ct rid rng hn)
  · have h0 : (strContains ct "DEFAULT NULL" && decide (rng.nullDraw < nullProb)) = false := by
      cases hb : (strContains ct "DEFAULT NULL" && decide (rng.nullDraw < nullProb))
      · rfl
      · exact absurd hb hn
    exact Or.inr ⟨choice (enumValuesOf (pyLower ct)) "" rng.enumRaw,
      gen_enum td.name cn ct rid rng h0 hcheck.1,
      choice_mem _ _ _ hcheck.2⟩

/-- Witness for C4 at the `posts.status` column: the value for row 1 at
the zero oracle is a declared enum literal (here the null branch cannot
even fire, since the type carries no `DEFAULT NULL`). -/
theorem c4_enum_values_witness :
    generate_row_value "posts" "status"
        "enum('draft','published','archived') DEFAULT 'draft'" 1 rng0 = .null ∨
    ∃ v, generate_row_value "posts" "status"
        "enum('draft','published','archived') DEFAULT 'draft'" 1 rng0 = .strV v ∧
      v ∈ enumValuesOf (pyLower "enum('draft','published','archived') DEFAULT 'draft'") :=
  c4_enum_values postsDef (by decide) "status"
    "enum('draft','published','archived') DEFAULT 'draft'" (by decide) (by decide) 1 rng0

lemma gen_varchar_fallback (nm cn ct : String) (rid : Nat) (rng : Rng)
    (h0 : (strContains ct "DEFAULT NULL" && decide (rng.nullDraw < nullProb)) = false)
    (hg : reachesVarcharFallback cn ct) :
    generate_row_value nm cn ct rid rng =
      .strV (random_string rng.vcChars
        (min ((findParenNum "varchar(".data (pyLower ct).data).getD 100)
          (randint 10 50 rng.vcLenRaw))) := by
  obtain ⟨h1, h2, h3, h4, h5, h6, h7, h8, h9, h10, h11, h12, h13, h14, h15, h16,
    h17, h18, h19, h20, h21, h22, h23, h24⟩ := hg
  have h13a : strContains (pyLower ct) "int" = false := by
    rw [h14] at h13
    simpa using h13
  unfold generate_row_value
  simp only [h0, h1, h2, h3, h4, h5, h6, h7, h8, h9, h10, h11, h12, h13a, h14, h15,
    h16, h17, h18, h19, h20, h21, h22, h23, h24, Bool.false_and, Bool.false_eq_true,
    if_false, if_true]

lemma gen_char (nm cn ct : String) (rid : Nat) (rng : Rng)
    (h0 : (strContains ct "DEFAULT NULL" && decide (rng.nullDraw < nullProb)) = false)
    (hg : reachesCharBranch cn ct) :
    generate_row_value nm cn ct rid rng =
      .strV (pyUpper (random_string rng.charChars
        ((findParenNum "char(".data (pyLower ct).data).getD 3))) := by
  obtain ⟨h1, h2, h3, h4, h5, h6, h7, h8, h9, h10, h11, h12, h13, h14, h15, h16,
    h17, h18, h19, h20⟩ := hg
  have h13a : strContains (pyLower ct) "int" = false := by
    rw [h14] at h13
    simpa using h13
  unfold generate_row_value
  simp only [h0, h1, h2, h3, h4, h5, h6, h7, h8, h9, h10, h11, h12, h13a, h14, h15,
    h16, h17, h18, h19, h20, Bool.false_and, Bool.false_eq_true, if_false, if_true]

lemma isLowerStr_random_string (cs : Nat → Nat) (k : Nat) :
    isLowerStr (random_string cs k) = true := by
  unfold isLowerStr random_string
  simp only [List.all_eq_true]
  intro c hc
  simp only [List.mem_map, List.mem_range] at hc
  obtain ⟨i, _, rfl⟩ := hc
  have hlow : ∀ c ∈ ascii_lowercase, (decide ('a' ≤ c) && decide (c ≤ 'z')) = true := by
    decide
  exact hlow _ (choice_mem ascii_lowercase 'a' (cs i) (by decide))

lemma isUpperStr_pyUpper_random_string (cs : Nat → Nat) (k : Nat) :
    isUpperStr (pyUpper (random_string cs k)) = true := by
  unfold isUpperStr pyUpper random_string
  simp only [List.all_eq_true, List.map_map, List.mem_map, List.mem_range]
  intro c hc
  obtain ⟨i, _, rfl⟩ := hc
  have hup : ∀ c ∈ ascii_lowercase,
      (decide ('A' ≤ Char.toUpper c) && decide (Char.toUpper c ≤ 'Z')) = true := by decide
  exact hup _ (choice_mem ascii_lowercase 'a' (cs i) (by decide))

lemma length_random_string (cs : Nat → Nat) (k : Nat) :
    (random_string cs k).length = k := by
  simp [random_string, String.length]

lemma length_pyUpper (s : String) : (pyUpper s).length = s.length := by
  show (s.data.map Char.toUpper).length = s.data.length
  exact List.length_map _ _

/-- C8 counterexample: the claim "every char(n)/varchar(n) column with a
non-special name yields a random lowercase string of length at most n"
fails on the `orders.currency` column, type `char(3) DEFAULT 'USD'`:
that column reaches the plain char branch, and its generated value at
the zero oracle is `"AAA"`, which is not a lowercase string (the char
branch applies `.upper()` to the random string). -/
theorem c8_char_class_counterexample :
    reachesCharBranch "currency" "char(3) DEFAULT 'USD'" ∧
    generate_row_value "orders" "currency" "char(3) DEFAULT 'USD'" 1 rng0 =
      .strV "AAA" ∧
    isLowerStr "AAA" = false := by
  exact ⟨by decide, by decide, by decide⟩

/-- C8 amended: for a varchar column that falls through every earlier
name/type rule and is none of the specially formatted names, the value
is a random lowercase string whose length does not exceed the declared
maximum length (the parsed `varchar(n)` bound, default 100); for a
column reaching the plain char branch, the value is a random UPPERCASE
string of exactly the declared length (`char(n)` bound, default 3) —
uppercase, not lowercase as the original claim stated. -/
theorem c8_char_class_amended :
    ∀ (nm cn ct : String) (rid : Nat) (rng : Rng),
      (strContains ct "DEFAULT NULL" && decide (rng.nullDraw < nullProb)) = false →
      (reachesVarcharFallback cn ct →
        ∃ s, generate_row_value nm cn ct rid rng = .strV s ∧ isLowerStr s = true ∧
          s.length ≤ (findParenNum "varchar(".data (pyLower ct).data).getD 100) ∧
      (reachesCharBranch cn ct →
        ∃ s, generate_row_value nm cn ct rid rng = .strV s ∧ isUpperStr s = true ∧
          s.length = (findParenNum "char(".data (pyLower ct).data).getD 3) := by
  intro nm cn ct rid rng h0
  constructor
  · intro hg
    refine ⟨_, gen_varchar_fallback nm cn ct rid rng h0 hg,
      isLowerStr_random_string _ _, ?_⟩
    rw [length_random_string]
    exact Nat.min_le_left _ _
  · intro hg
    refine ⟨_, gen_char nm cn ct rid rng h0 hg,
      isUpperStr_pyUpper_random_string _ _, ?_⟩
    rw [length_pyUpper, length_random_string]

/-- Witness for the amended C8: the `media.disk` varchar column yields a
lowercase string within its 50-character bound, and the `orders.currency`
char column yields an uppercase string of exactly 3 characters. -/
theorem c8_char_class_amended_witness :
    (∃ s, generate_row_value "media" "disk" "varchar(50) DEFAULT 'public'" 1 rng0 =
        .strV s ∧ isLowerStr s = true ∧
      s.length ≤ (findParenNum "varchar(".data
        (pyLower "varchar(50) DEFAULT 'public'").data).getD 100) ∧
    (∃ s, generate_row_value "orders" "currency" "char(3) DEFAULT 'USD'" 1 rng0 =
        .strV s ∧ isUpperStr s = true ∧
      s.length = (findParenNum "char(".data
        (pyLower "char(3) DEFAULT 'USD'").data).getD 3) :=
  ⟨(c8_char_class_amended "media" "disk" "varchar(50) DEFAULT 'public'" 1 rng0
      (by decide)).1 (by decide),
   (c8_char_class_amended "orders" "currency" "char(3) DEFAULT 'USD'" 1 rng0
      (by decide)).2 (by decide)⟩
